import Mathlib

/-!
Shallow embedding of the compile-time concept-check library in src/main.cpp
(namespace otus). The library classifies a candidate C++ type T by a
hierarchy of structural capability checks (Iterator, InputIterator,
ForwardIterator, BidirectionalIterator, RandomAccessIterator) plus two
primitive checks (DefaultConstructible, EqualityComparable).

The embedding models the compile-time facts about a candidate type that the
checks query:
  * the five associated types extracted through std::iterator_traits
    (extraction can fail when the candidate is not iterator-like);
  * standard type-trait facts (is_default_constructible_v, ...);
  * for every expression whose decltype the checks inspect, the result type
    of that expression, with `none` meaning the expression is ill-formed;
  * the ambient is_convertible_v relation.
Result types follow the decltype convention: an lvalue of type U has result
type `Ty.ref U`, a const lvalue `Ty.constRef U`, and a prvalue the plain
type U.  The declaration `T &x = e;` (used by IteratorConcept, line 40 of
main.cpp) is well-formed exactly when the result type of e is `Ty.ref T`,
i.e. e is a non-const lvalue of type T.
-/

/-- Compile-time type expressions appearing in the checks: `bool`, abstract
object types (the candidate type, its value type, ...), lvalue-reference
types and const lvalue-reference types. -/
inductive Ty where
  | bool : Ty
  | base : Nat → Ty
  | ref : Ty → Ty
  | constRef : Ty → Ty
deriving DecidableEq

/-- The associated-type bundle extracted via std::iterator_traits<T>
(main.cpp lines 29-33): value_type, difference_type, reference, pointer,
iterator_category. -/
structure AssocTypes where
  value_type : Ty
  difference_type : Ty
  reference : Ty
  pointer : Ty
  iterator_category : Ty
deriving DecidableEq

/-- A candidate type T together with every compile-time fact about it that
the concept checks in main.cpp inspect.  Each `Option Ty` field is the
decltype of one concrete expression from the source, `none` when that
expression is ill-formed for T.  Operand conventions follow the members of
the checker structs: `t`, `i` are mutable T lvalues, `j`, `a`, `b` are
const T lvalues, `r` is a T& and `n` a difference_type value. -/
structure CType where
  /-- The candidate type T itself (an object type). -/
  self : Ty
  /-- std::iterator_traits<T> extraction; `none` when T is not
  iterator-like, which makes the class-scope alias declarations of every
  iterator-level checker fail to compile. -/
  traits : Option AssocTypes
  /-- std::is_default_constructible_v<T> (line 13). -/
  is_default_constructible : Bool
  /-- std::is_copy_constructible_v<T> (line 35). -/
  is_copy_constructible : Bool
  /-- std::is_copy_assignable_v<T> (line 36). -/
  is_copy_assignable : Bool
  /-- std::is_destructible_v<T> (line 37). -/
  is_destructible : Bool
  /-- std::is_swappable_v<T> (line 38). -/
  is_swappable : Bool
  /-- The ambient std::is_convertible_v relation on result types. -/
  conv : Ty → Ty → Bool
  /-- decltype(a==b), a mutable, b const (line 19). -/
  eq_ab : Option Ty
  /-- decltype(a==a), mutable left and right operands (line 20). -/
  eq_aa : Option Ty
  /-- decltype of an equality comparison whose LEFT operand is const.  No
  check in the source inspects this expression; it is carried in the model
  to express that fact. -/
  eq_const_left : Option Ty
  /-- decltype(*t) = decltype(*i), dereference of a mutable T lvalue
  (lines 39 and 52). -/
  deref : Option Ty
  /-- decltype(++t) = decltype(++i), pre-increment (lines 40 and 55). -/
  preinc : Option Ty
  /-- decltype(i++), post-increment (lines 56 and 68). -/
  postinc : Option Ty
  /-- decltype(*i++) (lines 57 and 69). -/
  deref_postinc : Option Ty
  /-- decltype(i!=j), i mutable, j const (line 51). -/
  neq : Option Ty
  /-- decltype(--i), pre-decrement (line 79). -/
  predec : Option Ty
  /-- decltype(i--), post-decrement (line 80). -/
  postdec : Option Ty
  /-- decltype(*i--) (line 81). -/
  deref_postdec : Option Ty
  /-- decltype(r += n), r : T&, n : difference_type (line 93). -/
  plusAssign : Option Ty
  /-- decltype(a + n), a const (line 94). -/
  plus_in : Option Ty
  /-- decltype(n + a) (line 95). -/
  plus_ni : Option Ty
  /-- decltype(r -= n) (line 96). -/
  minusAssign : Option Ty
  /-- decltype(i - n), i mutable (line 97). -/
  minus_in : Option Ty
  /-- decltype(b - a), both const (line 98). -/
  minus_ba : Option Ty
  /-- decltype(i[n]) (line 99). -/
  index : Option Ty
  /-- decltype(a < b) (line 100). -/
  lt : Option Ty
  /-- decltype(a > b) (line 101). -/
  gt : Option Ty
  /-- decltype(a >= b) (line 102). -/
  ge : Option Ty
  /-- decltype(a <= b) (line 103). -/
  le : Option Ty

/-- is_convertible_v<decltype(e), V> for a possibly ill-formed expression e:
an ill-formed operand makes the whole decltype query ill-formed. -/
def convOpt (c : CType) (u : Option Ty) (v : Ty) : Bool :=
  match u with
  | some t => c.conv t v
  | none => false

/-- otus::DefaultConstructibleConcept (main.cpp lines 10-15): the single
static_assert on std::is_default_constructible_v<T>. -/
def DefaultConstructibleConcept (c : CType) : Bool :=
  c.is_default_constructible

/-- otus::EqualityComparableConcept (main.cpp lines 16-25): both
decltype(a==b) and decltype(a==a) must be exactly bool (a mutable,
b const). -/
def EqualityComparableConcept (c : CType) : Bool :=
  decide (c.eq_ab = some Ty.bool) && decide (c.eq_aa = some Ty.bool)

/-- Line 40 of main.cpp, `T &_t = ++t;`: the result of pre-increment must
initialize a non-const lvalue reference T&, i.e. be an lvalue of type T. -/
def preincBindsMutableRef (c : CType) : Bool :=
  decide (c.preinc = some (Ty.ref c.self))

/-- The usage-function body of otus::IteratorConcept (lines 34-41): the four
type-trait asserts, well-formedness of `*t`, and `T &_t = ++t;`. -/
def iteratorUsage (c : CType) : Bool :=
  c.is_copy_constructible && c.is_copy_assignable && c.is_destructible &&
  c.is_swappable && c.deref.isSome && preincBindsMutableRef c

/-- The usage-function body of otus::InputIteratorConcept (lines 50-57). -/
def inputIteratorUsage (c : CType) (tr : AssocTypes) : Bool :=
  decide (c.neq = some Ty.bool) &&
  decide (c.deref = some tr.reference) &&
  convOpt c c.deref tr.value_type &&
  decide (c.preinc = some (Ty.ref c.self)) &&
  c.postinc.isSome &&
  convOpt c c.deref_postinc tr.value_type

/-- The usage-function body of otus::ForwardIteratorConcept (lines 67-70). -/
def forwardIteratorUsage (c : CType) (tr : AssocTypes) : Bool :=
  decide (c.postinc = some c.self) &&
  decide (c.deref_postinc = some tr.reference)

/-- The usage-function body of otus::BidirectionalIteratorConcept
(lines 78-82). -/
def bidirectionalIteratorUsage (c : CType) (tr : AssocTypes) : Bool :=
  decide (c.predec = some (Ty.ref c.self)) &&
  convOpt c c.postdec (Ty.constRef c.self) &&
  decide (c.deref_postdec = some tr.reference)

/-- The usage-function body of otus::RandomAccessIteratorConcept
(lines 92-104). -/
def randomAccessIteratorUsage (c : CType) (tr : AssocTypes) : Bool :=
  decide (c.plusAssign = some (Ty.ref c.self)) &&
  decide (c.plus_in = some c.self) &&
  decide (c.plus_ni = some c.self) &&
  decide (c.minusAssign = some (Ty.ref c.self)) &&
  decide (c.minus_in = some c.self) &&
  decide (c.minus_ba = some tr.difference_type) &&
  convOpt c c.index tr.reference &&
  decide (c.lt = some Ty.bool) &&
  decide (c.gt = some Ty.bool) &&
  decide (c.ge = some Ty.bool) &&
  decide (c.le = some Ty.bool)

/-- Outcome of instantiating one checker struct for a candidate type:
the class-scope iterator_traits extraction can fail (a hard error before
any usage-function static_assert is reached), a static_assert or
ill-formed required expression in a usage function can fail, or the
instantiation compiles. -/
inductive Outcome where
  | extractionFailure : Outcome
  | structuralFailure : Outcome
  | pass : Outcome
deriving DecidableEq

/-- Did the instantiation compile. -/
def passes : Outcome → Bool
  | Outcome.pass => true
  | _ => false

/-- otus::IteratorConcept (lines 27-44): the class-scope aliases force
iterator_traits extraction first; then the usage body. -/
def IteratorConcept (c : CType) : Outcome :=
  match c.traits with
  | none => Outcome.extractionFailure
  | some _ => if iteratorUsage c then Outcome.pass else Outcome.structuralFailure

/-- otus::InputIteratorConcept (lines 46-62): derives from
EqualityComparableConcept and IteratorConcept; its own aliases re-extract
the traits; then the inherited and own usage bodies. -/
def InputIteratorConcept (c : CType) : Outcome :=
  match c.traits with
  | none => Outcome.extractionFailure
  | some tr =>
    if EqualityComparableConcept c && passes (IteratorConcept c) &&
        inputIteratorUsage c tr
    then Outcome.pass else Outcome.structuralFailure

/-- otus::ForwardIteratorConcept (lines 64-73): derives from
DefaultConstructibleConcept and InputIteratorConcept. -/
def ForwardIteratorConcept (c : CType) : Outcome :=
  match c.traits with
  | none => Outcome.extractionFailure
  | some tr =>
    if DefaultConstructibleConcept c && passes (InputIteratorConcept c) &&
        forwardIteratorUsage c tr
    then Outcome.pass else Outcome.structuralFailure

/-- otus::BidirectionalIteratorConcept (lines 75-85): derives from
ForwardIteratorConcept. -/
def BidirectionalIteratorConcept (c : CType) : Outcome :=
  match c.traits with
  | none => Outcome.extractionFailure
  | some tr =>
    if passes (ForwardIteratorConcept c) && bidirectionalIteratorUsage c tr
    then Outcome.pass else Outcome.structuralFailure

/-- otus::RandomAccessIteratorConcept (lines 87-110): derives from
BidirectionalIteratorConcept. -/
def RandomAccessIteratorConcept (c : CType) : Outcome :=
  match c.traits with
  | none => Outcome.extractionFailure
  | some tr =>
    if passes (BidirectionalIteratorConcept c) &&
        randomAccessIteratorUsage c tr
    then Outcome.pass else Outcome.structuralFailure

/-- BOOST_CONCEPT_ASSERT((otus::IteratorConcept<T>)) compiles. -/
def iteratorPasses (c : CType) : Bool := passes (IteratorConcept c)

/-- BOOST_CONCEPT_ASSERT((otus::InputIteratorConcept<T>)) compiles. -/
def inputIteratorPasses (c : CType) : Bool := passes (InputIteratorConcept c)

/-- BOOST_CONCEPT_ASSERT((otus::ForwardIteratorConcept<T>)) compiles. -/
def forwardIteratorPasses (c : CType) : Bool := passes (ForwardIteratorConcept c)

/-- BOOST_CONCEPT_ASSERT((otus::BidirectionalIteratorConcept<T>)) compiles. -/
def bidirectionalIteratorPasses (c : CType) : Bool :=
  passes (BidirectionalIteratorConcept c)

/-- BOOST_CONCEPT_ASSERT((otus::RandomAccessIteratorConcept<T>)) compiles. -/
def randomAccessIteratorPasses (c : CType) : Bool :=
  passes (RandomAccessIteratorConcept c)

/-! Concrete model instances. `tyT` plays the candidate type, `tyVal` its
value type (think int), `tyDiff` its difference type (think ptrdiff_t). -/

def tyT : Ty := Ty.base 0

def tyVal : Ty := Ty.base 1

def tyDiff : Ty := Ty.base 2

def tyPtr : Ty := Ty.base 3

def tyCat : Ty := Ty.base 4

def vecTraits : AssocTypes :=
  { value_type := tyVal, difference_type := tyDiff, reference := Ty.ref tyVal,
    pointer := tyPtr, iterator_category := tyCat }

/-- A model of std::vector<int>::iterator: every operation well-formed with
the standard result types; conversions are generous. -/
def vectorIntIterator : CType :=
  { self := tyT
    traits := some vecTraits
    is_default_constructible := true
    is_copy_constructible := true
    is_copy_assignable := true
    is_destructible := true
    is_swappable := true
    conv := fun _ _ => true
    eq_ab := some Ty.bool
    eq_aa := some Ty.bool
    eq_const_left := some Ty.bool
    deref := some (Ty.ref tyVal)
    preinc := some (Ty.ref tyT)
    postinc := some tyT
    deref_postinc := some (Ty.ref tyVal)
    neq := some Ty.bool
    predec := some (Ty.ref tyT)
    postdec := some tyT
    deref_postdec := some (Ty.ref tyVal)
    plusAssign := some (Ty.ref tyT)
    plus_in := some tyT
    plus_ni := some tyT
    minusAssign := some (Ty.ref tyT)
    minus_in := some tyT
    minus_ba := some tyDiff
    index := some (Ty.ref tyVal)
    lt := some Ty.bool
    gt := some Ty.bool
    ge := some Ty.bool
    le := some Ty.bool }

/-- A model of std::list<int>::iterator: no iterator arithmetic, no
indexing, no relational comparisons. -/
def listIntIterator : CType :=
  { vectorIntIterator with
    plusAssign := none, plus_in := none, plus_ni := none,
    minusAssign := none, minus_in := none, minus_ba := none,
    index := none, lt := none, gt := none, ge := none, le := none }

/-- A model of a non-iterator type whose iterator_traits extraction fails
(e.g. a plain struct): no associated types at all. -/
def noTraits : CType :=
  { vectorIntIterator with traits := none }

/-- A traits-exposing type that violates Iterator-level structure: neither
dereference nor increment is defined. -/
def plainStruct : CType :=
  { vectorIntIterator with
    deref := none, preinc := none, postinc := none, deref_postinc := none }

/-- plainStruct, additionally not default constructible. -/
def plainStructNoDc : CType :=
  { plainStruct with is_default_constructible := false }

/-- plainStruct, additionally without equality comparison. -/
def plainStructNoEq : CType :=
  { plainStruct with eq_ab := none, eq_aa := none, eq_const_left := none }

/-- A default-constructible type without equality comparison. -/
def noEq : CType :=
  { vectorIntIterator with
    eq_ab := none, eq_aa := none, eq_const_left := none }

/-- An equality-comparable type that is not default constructible. -/
def noDc : CType :=
  { vectorIntIterator with is_default_constructible := false }

/-- A type whose pre-increment returns T BY VALUE: decltype(++t) is the
prvalue T, which is convertible to T but cannot initialize a T&. -/
def badPreincIterator : CType :=
  { vectorIntIterator with preinc := some tyT }

/-- A type whose equality operator is usable only with a mutable left
operand (e.g. a non-const member operator==): the const-left comparison is
ill-formed, the two comparisons the check performs are fine. -/
def mutableOnlyEq : CType :=
  { vectorIntIterator with eq_const_left := none }

/-! Spec-side definitions.  Each `spec_...` definition below transcribes the
WORDING of one spec sentence about a check, to be compared with the
corresponding definition transcribed from the source. -/

/-- Spec wording for the Iterator-level pre-increment requirement:
"pre-increment returns a value usable as (convertible to) the iterator
type itself". -/
def spec_preincConvertibleToSelf (c : CType) : Bool :=
  convOpt c c.preinc c.self

/-- Spec wording of the InputIterator-specific requirements: inequality of
a mutable and an immutable instance is exactly bool; dereference is exactly
the declared reference type and convertible to the declared value type;
pre-increment is exactly T&; post-increment is well-formed; dereferencing
the post-increment result converts to the value type. -/
def spec_inputIteratorRequirements (c : CType) : Bool :=
  match c.traits with
  | none => false
  | some tr =>
    decide (c.neq = some Ty.bool) &&
    decide (c.deref = some tr.reference) &&
    convOpt c c.deref tr.value_type &&
    decide (c.preinc = some (Ty.ref c.self)) &&
    c.postinc.isSome &&
    convOpt c c.deref_postinc tr.value_type

/-- Spec wording of the two ForwardIterator additions: post-increment is
exactly T by value; dereferencing the post-increment result is exactly the
declared reference type. -/
def spec_forwardIteratorAdditions (c : CType) : Bool :=
  match c.traits with
  | none => false
  | some tr =>
    decide (c.postinc = some c.self) &&
    decide (c.deref_postinc = some tr.reference)

/-- Spec wording of the three BidirectionalIterator additions:
pre-decrement is exactly T&; the post-decrement result converts to
const T&; dereferencing the post-decrement result is exactly the declared
reference type. -/
def spec_bidirectionalIteratorAdditions (c : CType) : Bool :=
  match c.traits with
  | none => false
  | some tr =>
    decide (c.predec = some (Ty.ref c.self)) &&
    convOpt c c.postdec (Ty.constRef c.self) &&
    decide (c.deref_postdec = some tr.reference)

/-- Spec wording of the RandomAccessIterator additions: += and -= with a
difference value are exactly T&; a+n, n+a and i-n are exactly T; b-a is
exactly the difference type; i[n] converts to the reference type; the four
relational comparisons are exactly bool. -/
def spec_randomAccessIteratorAdditions (c : CType) : Bool :=
  match c.traits with
  | none => false
  | some tr =>
    decide (c.plusAssign = some (Ty.ref c.self)) &&
    decide (c.minusAssign = some (Ty.ref c.self)) &&
    decide (c.plus_in = some c.self) &&
    decide (c.plus_ni = some c.self) &&
    decide (c.minus_in = some c.self) &&
    decide (c.minus_ba = some tr.difference_type) &&
    convOpt c c.index tr.reference &&
    decide (c.lt = some Ty.bool) &&
    decide (c.gt = some Ty.bool) &&
    decide (c.le = some Ty.bool) &&
    decide (c.ge = some Ty.bool)

/-! Unfolding equations for the Outcome-valued checks, and the refinement
chain between consecutive levels. -/

theorem passes_ite (b : Bool) :
    passes (if b then Outcome.pass else Outcome.structuralFailure) = b := by
  cases b <;> rfl

theorem IteratorConcept_none (c : CType) (h : c.traits = none) :
    IteratorConcept c = Outcome.extractionFailure := by
  unfold IteratorConcept; rw [h]

theorem IteratorConcept_some (c : CType) (tr : AssocTypes)
    (h : c.traits = some tr) :
    IteratorConcept c =
      if iteratorUsage c then Outcome.pass else Outcome.structuralFailure := by
  unfold IteratorConcept; rw [h]

theorem InputIteratorConcept_none (c : CType) (h : c.traits = none) :
    InputIteratorConcept c = Outcome.extractionFailure := by
  unfold InputIteratorConcept; rw [h]

theorem InputIteratorConcept_some (c : CType) (tr : AssocTypes)
    (h : c.traits = some tr) :
    InputIteratorConcept c =
      if EqualityComparableConcept c && passes (IteratorConcept c) &&
          inputIteratorUsage c tr
      then Outcome.pass else Outcome.structuralFailure := by
  unfold InputIteratorConcept; rw [h]

theorem ForwardIteratorConcept_none (c : CType) (h : c.traits = none) :
    ForwardIteratorConcept c = Outcome.extractionFailure := by
  unfold ForwardIteratorConcept; rw [h]

theorem ForwardIteratorConcept_some (c : CType) (tr : AssocTypes)
    (h : c.traits = some tr) :
    ForwardIteratorConcept c =
      if DefaultConstructibleConcept c && passes (InputIteratorConcept c) &&
          forwardIteratorUsage c tr
      then Outcome.pass else Outcome.structuralFailure := by
  unfold ForwardIteratorConcept; rw [h]

theorem BidirectionalIteratorConcept_none (c : CType) (h : c.traits = none) :
    BidirectionalIteratorConcept c = Outcome.extractionFailure := by
  unfold BidirectionalIteratorConcept; rw [h]

theorem BidirectionalIteratorConcept_some (c : CType) (tr : AssocTypes)
    (h : c.traits = some tr) :
    BidirectionalIteratorConcept c =
      if passes (ForwardIteratorConcept c) && bidirectionalIteratorUsage c tr
      then Outcome.pass else Outcome.structuralFailure := by
  unfold BidirectionalIteratorConcept; rw [h]

theorem RandomAccessIteratorConcept_none (c : CType) (h : c.traits = none) :
    RandomAccessIteratorConcept c = Outcome.extractionFailure := by
  unfold RandomAccessIteratorConcept; rw [h]

theorem RandomAccessIteratorConcept_some (c : CType) (tr : AssocTypes)
    (h : c.traits = some tr) :
    RandomAccessIteratorConcept c =
      if passes (BidirectionalIteratorConcept c) &&
          randomAccessIteratorUsage c tr
      then Outcome.pass else Outcome.structuralFailure := by
  unfold RandomAccessIteratorConcept; rw [h]

theorem input_imp_iterator (c : CType) (h : inputIteratorPasses c = true) :
    iteratorPasses c = true := by
  unfold inputIteratorPasses at h
  cases htr : c.traits with
  | none => rw [InputIteratorConcept_none c htr] at h; simp [passes] at h
  | some tr =>
    rw [InputIteratorConcept_some c tr htr, passes_ite] at h
    simp only [Bool.and_eq_true] at h
    exact h.1.2

theorem forward_imp_input (c : CType) (h : forwardIteratorPasses c = true) :
    inputIteratorPasses c = true := by
  unfold forwardIteratorPasses at h
  cases htr : c.traits with
  | none => rw [ForwardIteratorConcept_none c htr] at h; simp [passes] at h
  | some tr =>
    rw [ForwardIteratorConcept_some c tr htr, passes_ite] at h
    simp only [Bool.and_eq_true] at h
    exact h.1.2

theorem bidir_imp_forward (c : CType)
    (h : bidirectionalIteratorPasses c = true) :
    forwardIteratorPasses c = true := by
  unfold bidirectionalIteratorPasses at h
  cases htr : c.traits with
  | none => rw [BidirectionalIteratorConcept_none c htr] at h; simp [passes] at h
  | some tr =>
    rw [BidirectionalIteratorConcept_some c tr htr, passes_ite] at h
    simp only [Bool.and_eq_true] at h
    exact h.1

theorem ra_imp_bidir (c : CType)
    (h : randomAccessIteratorPasses c = true) :
    bidirectionalIteratorPasses c = true := by
  unfold randomAccessIteratorPasses at h
  cases htr : c.traits with
  | none => rw [RandomAccessIteratorConcept_none c htr] at h; simp [passes] at h
  | some tr =>
    rw [RandomAccessIteratorConcept_some c tr htr, passes_ite] at h
    simp only [Bool.and_eq_true] at h
    exact h.1

/-- Claim C1: monotonic refinement of the capability hierarchy — any type
passing the RandomAccess check also passes the Bidirectional, Forward,
Input and Iterator checks; contrapositively, a type failing the
Iterator-level check fails every stronger level's check. -/
theorem monotonic_refinement (c : CType) :
    (randomAccessIteratorPasses c = true →
      bidirectionalIteratorPasses c = true ∧
      forwardIteratorPasses c = true ∧
      inputIteratorPasses c = true ∧
      iteratorPasses c = true) ∧
    (iteratorPasses c = false →
      inputIteratorPasses c = false ∧
      forwardIteratorPasses c = false ∧
      bidirectionalIteratorPasses c = false ∧
      randomAccessIteratorPasses c = false) := by
  constructor
  · intro h
    have hb := ra_imp_bidir c h
    have hf := bidir_imp_forward c hb
    have hi := forward_imp_input c hf
    exact ⟨hb, hf, hi, input_imp_iterator c hi⟩
  · intro h
    have hi : inputIteratorPasses c = false := by
      cases hx : inputIteratorPasses c with
      | false => rfl
      | true => rw [input_imp_iterator c hx] at h; exact h
    have hf : forwardIteratorPasses c = false := by
      cases hx : forwardIteratorPasses c with
      | false => rfl
      | true => rw [forward_imp_input c hx] at hi; exact hi
    have hb : bidirectionalIteratorPasses c = false := by
      cases hx : bidirectionalIteratorPasses c with
      | false => rfl
      | true => rw [bidir_imp_forward c hx] at hf; exact hf
    have hr : randomAccessIteratorPasses c = false := by
      cases hx : randomAccessIteratorPasses c with
      | false => rfl
      | true => rw [ra_imp_bidir c hx] at hb; exact hb
    exact ⟨hi, hf, hb, hr⟩

/-- Witness for C1: the vector-like model passes every level, so the first
implication fires at it; the traits-free model fails the Iterator check,
so the second implication fires at it. -/
theorem monotonic_refinement_witness :
    (bidirectionalIteratorPasses vectorIntIterator = true ∧
      forwardIteratorPasses vectorIntIterator = true ∧
      inputIteratorPasses vectorIntIterator = true ∧
      iteratorPasses vectorIntIterator = true) ∧
    (inputIteratorPasses noTraits = false ∧
      forwardIteratorPasses noTraits = false ∧
      bidirectionalIteratorPasses noTraits = false ∧
      randomAccessIteratorPasses noTraits = false) :=
  ⟨(monotonic_refinement vectorIntIterator).1 (by decide),
    (monotonic_refinement noTraits).2 (by decide)⟩

/-- Counterexample to claim C2 as stated: badPreincIterator's pre-increment
result (a prvalue T) is convertible to T, yet line 40's `T &_t = ++t;`
rejects it, and the whole Iterator check fails, although every other
Iterator requirement holds. -/
theorem preinc_convertible_counterexample :
    spec_preincConvertibleToSelf badPreincIterator = true ∧
    preincBindsMutableRef badPreincIterator = false ∧
    iteratorPasses badPreincIterator = false ∧
    badPreincIterator.is_copy_constructible = true ∧
    badPreincIterator.is_copy_assignable = true ∧
    badPreincIterator.is_destructible = true ∧
    badPreincIterator.is_swappable = true ∧
    badPreincIterator.deref.isSome = true := by
  decide

/-- Claim C2 amended: the Iterator-level pre-increment requirement demands
that the pre-increment result initialize a non-const lvalue reference T&,
i.e. be an lvalue of type T (result type exactly T&); mere convertibility
to T does not suffice.  Consequently every type passing the Iterator check
has pre-increment result type exactly T&. -/
theorem preinc_requires_lvalue_of_self (c : CType)
    (h : iteratorPasses c = true) :
    c.preinc = some (Ty.ref c.self) := by
  unfold iteratorPasses at h
  cases htr : c.traits with
  | none => rw [IteratorConcept_none c htr] at h; simp [passes] at h
  | some tr =>
    rw [IteratorConcept_some c tr htr, passes_ite] at h
    unfold iteratorUsage preincBindsMutableRef at h
    simp only [Bool.and_eq_true, decide_eq_true_eq] at h
    exact h.2

/-- Witness for the amended C2 at the vector-like model. -/
theorem preinc_requires_lvalue_of_self_witness :
    iteratorPasses vectorIntIterator = true ∧
    vectorIntIterator.preinc = some (Ty.ref vectorIntIterator.self) :=
  ⟨by decide, preinc_requires_lvalue_of_self vectorIntIterator (by decide)⟩

theorem bool_eq_of_iff {a b : Bool} (h : a = true ↔ b = true) : a = b := by
  cases a <;> cases b <;> simp_all

/-- Claim C3: the InputIterator check passes exactly when the Iterator and
EqualityComparable prerequisites pass and the five InputIterator-specific
requirements (as worded by the spec) hold. -/
theorem input_iterator_characterization (c : CType) :
    inputIteratorPasses c =
      (iteratorPasses c && EqualityComparableConcept c &&
        spec_inputIteratorRequirements c) := by
  unfold inputIteratorPasses iteratorPasses spec_inputIteratorRequirements
  cases htr : c.traits with
  | none =>
    rw [InputIteratorConcept_none c htr]
    simp [passes]
  | some tr =>
    rw [InputIteratorConcept_some c tr htr, passes_ite]
    apply bool_eq_of_iff
    simp only [Bool.and_eq_true, inputIteratorUsage]
    tauto

/-- Claim C4: the ForwardIterator check passes exactly when the
InputIterator and DefaultConstructible prerequisites pass and the two
Forward-specific requirements (as worded by the spec) hold. -/
theorem forward_iterator_characterization (c : CType) :
    forwardIteratorPasses c =
      (inputIteratorPasses c && DefaultConstructibleConcept c &&
        spec_forwardIteratorAdditions c) := by
  unfold forwardIteratorPasses inputIteratorPasses spec_forwardIteratorAdditions
  cases htr : c.traits with
  | none =>
    rw [ForwardIteratorConcept_none c htr, InputIteratorConcept_none c htr]
    simp [passes]
  | some tr =>
    rw [ForwardIteratorConcept_some c tr htr, passes_ite]
    apply bool_eq_of_iff
    simp only [Bool.and_eq_true, forwardIteratorUsage]
    tauto

/-- Claim C5: the BidirectionalIterator check passes exactly when the
ForwardIterator prerequisite passes and the three Bidirectional-specific
requirements (as worded by the spec) hold. -/
theorem bidirectional_iterator_characterization (c : CType) :
    bidirectionalIteratorPasses c =
      (forwardIteratorPasses c && spec_bidirectionalIteratorAdditions c) := by
  unfold bidirectionalIteratorPasses forwardIteratorPasses
    spec_bidirectionalIteratorAdditions
  cases htr : c.traits with
  | none =>
    rw [BidirectionalIteratorConcept_none c htr,
      ForwardIteratorConcept_none c htr]
    simp [passes]
  | some tr =>
    rw [BidirectionalIteratorConcept_some c tr htr, passes_ite]
    apply bool_eq_of_iff
    simp only [Bool.and_eq_true, bidirectionalIteratorUsage]

/-- Claim C6: the RandomAccessIterator check passes exactly when the
BidirectionalIterator prerequisite passes and the RandomAccess-specific
requirements (as worded by the spec) hold. -/
theorem random_access_iterator_characterization (c : CType) :
    randomAccessIteratorPasses c =
      (bidirectionalIteratorPasses c &&
        spec_randomAccessIteratorAdditions c) := by
  unfold randomAccessIteratorPasses bidirectionalIteratorPasses
    spec_randomAccessIteratorAdditions
  cases htr : c.traits with
  | none =>
    rw [RandomAccessIteratorConcept_none c htr,
      BidirectionalIteratorConcept_none c htr]
    simp [passes]
  | some tr =>
    rw [RandomAccessIteratorConcept_some c tr htr, passes_ite]
    apply bool_eq_of_iff
    simp only [Bool.and_eq_true, randomAccessIteratorUsage]
    tauto

/-- Claim C7: the EqualityComparable check passes exactly when both tested
comparisons are defined with result type exactly bool. -/
theorem equality_comparable_characterization (c : CType) :
    EqualityComparableConcept c = true ↔
      (c.eq_ab = some Ty.bool ∧ c.eq_aa = some Ty.bool) := by
  unfold EqualityComparableConcept
  rw [Bool.and_eq_true, decide_eq_true_eq, decide_eq_true_eq]

/-- Claim C8: when the candidate type exposes no associated types (the
iterator_traits extraction fails), every check at the Iterator level or
above fails with the extraction failure mode, regardless of every
structural fact about the type; and whenever the associated types ARE
exposed, no check ever reports the extraction failure mode, so a
structural violation is a distinct failure mode. -/
theorem missing_traits_extraction_failure :
    (∀ c : CType, c.traits = none →
      IteratorConcept c = Outcome.extractionFailure ∧
      InputIteratorConcept c = Outcome.extractionFailure ∧
      ForwardIteratorConcept c = Outcome.extractionFailure ∧
      BidirectionalIteratorConcept c = Outcome.extractionFailure ∧
      RandomAccessIteratorConcept c = Outcome.extractionFailure) ∧
    (∀ (c : CType) (tr : AssocTypes), c.traits = some tr →
      IteratorConcept c ≠ Outcome.extractionFailure ∧
      InputIteratorConcept c ≠ Outcome.extractionFailure ∧
      ForwardIteratorConcept c ≠ Outcome.extractionFailure ∧
      BidirectionalIteratorConcept c ≠ Outcome.extractionFailure ∧
      RandomAccessIteratorConcept c ≠ Outcome.extractionFailure) := by
  constructor
  · intro c h
    exact ⟨IteratorConcept_none c h, InputIteratorConcept_none c h,
      ForwardIteratorConcept_none c h, BidirectionalIteratorConcept_none c h,
      RandomAccessIteratorConcept_none c h⟩
  · intro c tr h
    refine ⟨?_, ?_, ?_, ?_, ?_⟩
    · rw [IteratorConcept_some c tr h]; split <;> decide
    · rw [InputIteratorConcept_some c tr h]; split <;> decide
    · rw [ForwardIteratorConcept_some c tr h]; split <;> decide
    · rw [BidirectionalIteratorConcept_some c tr h]; split <;> decide
    · rw [RandomAccessIteratorConcept_some c tr h]; split <;> decide

/-- Witness for C8: the traits-free model draws the extraction failure at
every level, and the traits-exposing but structurally broken plainStruct
never draws it (it fails structurally instead). -/
theorem missing_traits_extraction_failure_witness :
    (IteratorConcept noTraits = Outcome.extractionFailure ∧
      InputIteratorConcept noTraits = Outcome.extractionFailure ∧
      ForwardIteratorConcept noTraits = Outcome.extractionFailure ∧
      BidirectionalIteratorConcept noTraits = Outcome.extractionFailure ∧
      RandomAccessIteratorConcept noTraits = Outcome.extractionFailure) ∧
    (IteratorConcept plainStruct ≠ Outcome.extractionFailure ∧
      InputIteratorConcept plainStruct ≠ Outcome.extractionFailure ∧
      ForwardIteratorConcept plainStruct ≠ Outcome.extractionFailure ∧
      BidirectionalIteratorConcept plainStruct ≠ Outcome.extractionFailure ∧
      RandomAccessIteratorConcept plainStruct ≠ Outcome.extractionFailure) :=
  ⟨missing_traits_extraction_failure.1 noTraits rfl,
    missing_traits_extraction_failure.2 plainStruct vecTraits rfl⟩

/-- Claim C9: the two primitive checks are independent of each other (a
type can pass exactly one of them, in either direction) and of the base
Iterator check (every combination of passing or failing a primitive with
passing or failing the Iterator check is realized by some type). -/
theorem primitive_checks_independent :
    (DefaultConstructibleConcept noEq = true ∧
      EqualityComparableConcept noEq = false) ∧
    (EqualityComparableConcept noDc = true ∧
      DefaultConstructibleConcept noDc = false) ∧
    (∀ p q : Bool, ∃ c : CType,
      DefaultConstructibleConcept c = p ∧ iteratorPasses c = q) ∧
    (∀ p q : Bool, ∃ c : CType,
      EqualityComparableConcept c = p ∧ iteratorPasses c = q) := by
  refine ⟨by decide, by decide, ?_, ?_⟩
  · intro p q
    cases p <;> cases q
    · exact ⟨plainStructNoDc, by decide, by decide⟩
    · exact ⟨noDc, by decide, by decide⟩
    · exact ⟨plainStruct, by decide, by decide⟩
    · exact ⟨vectorIntIterator, by decide, by decide⟩
  · intro p q
    cases p <;> cases q
    · exact ⟨plainStructNoEq, by decide, by decide⟩
    · exact ⟨noEq, by decide, by decide⟩
    · exact ⟨plainStruct, by decide, by decide⟩
    · exact ⟨vectorIntIterator, by decide, by decide⟩

/-- Claim C10: the EqualityComparable check never inspects an equality
comparison with a const left operand — its verdict is unchanged under any
reassignment of that comparison's result type — and in particular a type
whose const-left comparison is ill-formed (e.g. only a non-const member
operator==) still passes. -/
theorem equality_check_ignores_const_left :
    (∀ (c : CType) (v : Option Ty),
      EqualityComparableConcept { c with eq_const_left := v } =
        EqualityComparableConcept c) ∧
    (mutableOnlyEq.eq_const_left = none ∧
      EqualityComparableConcept mutableOnlyEq = true) :=
  ⟨fun _ _ => rfl, rfl, by decide⟩
